import Mathlib

set_option maxRecDepth 40000

/-!
# Verification of the vortex Groth16 verifier module

A shallow embedding of the repository's two source files:

* `contracts/sources/vortex.move` — the on-ledger verifier module
  (constant `BN254_FIELD_MODULUS`, shared struct `Vortex`, the one-time
  `init`, and the exposed `transact` entry point);
* `scripts/src/transact.ts` — the client script (key loading and the
  `moveCall` argument list it submits).

External collaborators (the `sui::groth16` native verifier and `sui::bcs`)
are embedded by their interface behaviour: BCS `u256` serialization is the
32-byte little-endian encoding, and the native pairing check is an abstract
boolean function the theorems quantify over.
-/

namespace VortexModel

/-! ## Binary modular exponentiation

Fuel-indexed square-and-multiply, used to check the Lucas primality
certificate for the 254-bit field modulus by kernel computation. -/

def powMod : Nat → Nat → Nat → Nat → Nat
  | 0, _, _, n => 1 % n
  | fuel + 1, a, e, n =>
    if e = 0 then 1 % n
    else if e % 2 = 1 then a % n * powMod fuel (a * a % n) (e / 2) n % n
    else powMod fuel (a * a % n) (e / 2) n

/-! ## The Move module `vortex::vortex` -/

/-- `const BN254_FIELD_MODULUS: u256` from `vortex.move`. -/
def BN254_FIELD_MODULUS : Nat :=
  21888242871839275222246405745257275088548364400416034343698204186575808495617

/-- BCS serialization of a `u256` value: 32 bytes, little-endian
(`sui::bcs::to_bytes` on an unsigned 256-bit integer). -/
def bcsU256 (x : Nat) : List Nat :=
  (List.range 32).map fun i => x / 256 ^ i % 256

/-- `sui::groth16::Curve`: an elliptic-curve identifier wrapping a byte. -/
structure Curve where
  id : Nat
deriving DecidableEq

/-- `sui::groth16::bn254()`. -/
def bn254 : Curve := ⟨1⟩

/-- `sui::groth16::PreparedVerifyingKey`, kept abstract: it is determined
by the curve and the verifying-key bytes it was prepared from. -/
structure PreparedVerifyingKey where
  curve : Curve
  vkBytes : List Nat
deriving DecidableEq

/-- `sui::groth16::prepare_verifying_key`. -/
def prepare_verifying_key (c : Curve) (vk : List Nat) : PreparedVerifyingKey :=
  ⟨c, vk⟩

/-- `sui::groth16::PublicProofInputs`: a wrapper around serialized bytes. -/
structure PublicProofInputs where
  bytes : List Nat
deriving DecidableEq

/-- `sui::groth16::public_proof_inputs_from_bytes`. -/
def public_proof_inputs_from_bytes (b : List Nat) : PublicProofInputs := ⟨b⟩

/-- `sui::groth16::ProofPoints`: a wrapper around serialized proof bytes. -/
structure ProofPoints where
  bytes : List Nat
deriving DecidableEq

/-- `sui::groth16::proof_points_from_bytes`. -/
def proof_points_from_bytes (b : List Nat) : ProofPoints := ⟨b⟩

/-- The type of the native pairing verifier `verify_groth16_proof`:
an external collaborator, abstracted as any boolean-valued function of the
prepared key, the public inputs and the proof points. -/
abbrev Verifier :=
  PreparedVerifyingKey → PublicProofInputs → ProofPoints → Bool

/-- The `Vortex` shared object: `id: UID`, `curve: Curve`,
`vk: PreparedVerifyingKey`. -/
structure Vortex where
  id : Nat
  curve : Curve
  vk : PreparedVerifyingKey
deriving DecidableEq

/-- The transaction context: the caller identity (`ctx.sender().to_u256()`,
a 256-bit value) and the fresh-object counter backing `object::new`. -/
structure TxContext where
  sender : Nat
  idsCreated : Nat
deriving DecidableEq

/-- `object::new(ctx)`: a fresh id plus the updated context. -/
def object_new (ctx : TxContext) : Nat × TxContext :=
  (ctx.idsCreated, { ctx with idsCreated := ctx.idsCreated + 1 })

/-- Observable ledger effect of `init`: `transfer::share_object`. -/
inductive Effect where
  | shared (v : Vortex)
deriving DecidableEq

/-- `fun init(ctx: &mut TxContext)` from `vortex.move`, parametrized by the
bytes returned by the embedded constant macro
`vortex::vortex_constants::verifying_key!()` (that module is not part of
the two source files; the spec describes it as fixed embedded verification
key material, so `init` takes those bytes as a parameter). -/
def init (vkBytes : List Nat) (ctx : TxContext) : Effect × TxContext :=
  let curve := bn254
  let (id, ctx') := object_new ctx
  (Effect.shared { id := id, curve := curve,
                   vk := prepare_verifying_key curve vkBytes }, ctx')

/-- Line 35 of `vortex.move`:
`bcs::to_bytes(&(ctx.sender().to_u256() / BN254_FIELD_MODULUS))`.
Note the source uses integer division `/`. -/
def recipient_field (sender : Nat) : List Nat :=
  bcsU256 (sender / BN254_FIELD_MODULUS)

/-- The recipient binding as the spec words it (§4.2 step 1):
`recipientField = callerIdentity.toFieldElement() mod FIELD_MODULUS`,
BCS-encoded like the on-ledger value. Stated only for comparison with
`recipient_field`, which is translated from the source. -/
def spec_recipient_field (sender : Nat) : List Nat :=
  bcsU256 (sender % BN254_FIELD_MODULUS)

/-- `public fun transact(self: &mut Vortex, proof_points: vector<u8>,
ctx: &mut TxContext)` from `vortex.move`, with the native pairing check
passed in as `v`.  The body computes `recipient_field` from the sender,
then `assert!(verify_groth16_proof(...), 0)`; an `assert!` failure aborts
the transaction with code 0, and the body writes no field of `self`, so
success returns the entry state unchanged. -/
def transact (v : Verifier) (self : Vortex) (proof_points : List Nat)
    (sender : Nat) : Except Nat Vortex :=
  let rf := recipient_field sender
  if v self.vk (public_proof_inputs_from_bytes rf)
      (proof_points_from_bytes proof_points)
  then Except.ok self
  else Except.error 0

/-- The native verifier split into its two stages, to talk about the two
failure modes: deserializing the proof bytes into curve points (`deser`,
`none` = malformed) and the pairing check on deserialized points
(`pairing`). The native check returns `false` in both failure cases. -/
def nativeVerify {π : Type} (deser : List Nat → Option π)
    (pairing : PreparedVerifyingKey → PublicProofInputs → π → Bool) :
    Verifier :=
  fun vk ins pp =>
    match deser pp.bytes with
    | none => false
    | some pts => pairing vk ins pts

/-- Sample deserializer used to exhibit both failure modes concretely. -/
def sampleDeser (b : List Nat) : Option Unit :=
  if b = [] then none else some ()

/-- Sample pairing check that rejects everything. -/
def samplePairing : PreparedVerifyingKey → PublicProofInputs → Unit → Bool :=
  fun _ _ _ => false

/-- A sample `Vortex` state for witness instantiations. -/
def V0 : Vortex :=
  { id := 0, curve := bn254, vk := prepare_verifying_key bn254 [] }

/-! ## Signatures: the Move entry point and the client call -/

/-- Parameter types of the Move function `transact`. -/
inductive MoveParamType where
  | mutRefVortex
  | vecU8
  | mutRefTxContext
  | u256
deriving DecidableEq

/-- The parameter list of `public fun transact` in `vortex.move`. -/
def transactParamTypes : List MoveParamType :=
  [MoveParamType.mutRefVortex, MoveParamType.vecU8,
   MoveParamType.mutRefTxContext]

/-- A `&mut TxContext` parameter is injected by the runtime, not supplied
by the client. -/
def isClientSupplied : MoveParamType → Bool
  | MoveParamType.mutRefTxContext => false
  | _ => true

/-- The client-suppliable parameters of `transact`. -/
def transactClientParamTypes : List MoveParamType :=
  transactParamTypes.filter isClientSupplied

/-- An argument of the client's `tx.moveCall`. -/
inductive SuiArg where
  | objectRef (id : Nat)
  | pureVecU8 (bytes : List Nat)
  | pureU256 (value : Nat)
deriving DecidableEq

/-- The argument list built in `transact.ts` (lines 74–83):
`[tx.object(VORTEX_POOL_OBJECT_ID), tx.pure.vector('u8', proofBytes),
tx.pure.u256(result)]`. -/
def transactMoveCallArgs (poolId : Nat) (proofBytes : List Nat)
    (publicValue : Nat) : List SuiArg :=
  [SuiArg.objectRef poolId, SuiArg.pureVecU8 proofBytes,
   SuiArg.pureU256 publicValue]

/-! ## The client script's key loading (`transact.ts` lines 57–72) -/

/-- Whitespace as trimmed by the script's `.trim()` (on the ASCII
whitespace the hex key files can contain). -/
def isWsChar (c : Char) : Bool :=
  c = ' ' || c = '\t' || c = '\n' || c = '\r'

/-- `.trim()`: drop leading and trailing whitespace. -/
def trimChars (s : List Char) : List Char :=
  ((s.dropWhile isWsChar).reverse.dropWhile isWsChar).reverse

/-- `fs.readFileSync(path, 'utf8').trim()` applied to a key file's
contents. -/
def loadKey (fileContents : List Char) : List Char :=
  trimChars fileContents

/-- The proving-key string passed to `prove(...)`:
`provingKey` = the loaded (trimmed) proving-key file. -/
def proveKeyArg (pkFileContents : List Char) : List Char :=
  loadKey pkFileContents

/-- The verification-key string passed to `verify(...)`:
`verificationKey.trim()` where `verificationKey` is already the loaded
(trimmed) file. -/
def verifyKeyArg (vkFileContents : List Char) : List Char :=
  trimChars (loadKey vkFileContents)

/-! ## Prime factorizations for the Lucas certificates

Each list pairs a prime with its multiplicity; the product of the prime
powers is `p - 1` for the certified prime `p`. -/

def factors639533339 : List (Nat × Nat) :=
  [(2, 1), (229, 1), (853, 1), (1637, 1)]

def factors65865678001877903 : List (Nat × Nat) :=
  [(2, 1), (83, 1), (379, 1), (1637, 1), (639533339, 1)]

def factors12048837557 : List (Nat × Nat) :=
  [(2, 2), (7, 2), (661, 1), (93001, 1)]

def factors5156902474397 : List (Nat × Nat) :=
  [(2, 2), (107, 1), (12048837557, 1)]

def factors1670836401704629 : List (Nat × Nat) :=
  [(2, 2), (3, 4), (5156902474397, 1)]

def factors13818364434197438864469338081 : List (Nat × Nat) :=
  [(2, 5), (5, 1), (823, 1), (1593227, 1), (65865678001877903, 1)]

def factors405928799 : List (Nat × Nat) :=
  [(2, 1), (11, 1), (3691, 1), (4999, 1)]

def factorsBN254 : List (Nat × Nat) :=
  [(2, 28), (3, 2), (13, 1), (29, 1), (983, 1), (11003, 1), (237073, 1),
   (405928799, 1), (1670836401704629, 1),
   (13818364434197438864469338081, 1)]

/-- The product of the prime powers of a factor list. -/
def prodPow (L : List (Nat × Nat)) : Nat :=
  (L.map fun pe => pe.1 ^ pe.2).prod

/-! ## Correctness of `powMod` -/

theorem powMod_eq :
    ∀ (fuel a e n : Nat), e < 2 ^ fuel → powMod fuel a e n = a ^ e % n
  | 0, a, e, n, h => by
    have he : e = 0 := by
      have h1 : e < 1 := by simpa using h
      omega
    subst he
    simp [powMod]
  | fuel + 1, a, e, n, h => by
    by_cases he : e = 0
    · subst he
      simp [powMod]
    · have h2 : e / 2 < 2 ^ fuel := by
        rw [pow_succ] at h
        exact Nat.div_lt_of_lt_mul (by omega)
      have hr : powMod fuel (a * a % n) (e / 2) n = a ^ (2 * (e / 2)) % n := by
        rw [powMod_eq fuel (a * a % n) (e / 2) n h2, ← Nat.pow_mod]
        congr 1
        rw [← pow_two, ← pow_mul]
      by_cases ho : e % 2 = 1
      · have hee : e = 2 * (e / 2) + 1 := by omega
        simp only [powMod, if_neg he, if_pos ho, hr]
        rw [← Nat.mul_mod]
        conv_rhs => rw [hee]
        rw [pow_succ, Nat.mul_comm (a ^ (2 * (e / 2))) a]
      · have hee : e = 2 * (e / 2) := by omega
        simp only [powMod, if_neg he, if_neg ho, hr]
        conv_rhs => rw [hee]

/-! ## Transfer between `powMod` computations and `ZMod` powers -/

theorem cast_pow_eq_one_iff (a e p : Nat) (hp : 1 < p) :
    ((a : ZMod p) ^ e = 1) ↔ a ^ e % p = 1 := by
  have h1 : ((1 : Nat) : ZMod p) = 1 := Nat.cast_one
  rw [← Nat.cast_pow, ← h1, ZMod.natCast_eq_natCast_iff', Nat.mod_eq_of_lt hp]

theorem zmodPow_one_of_powMod (p a : Nat) (hp : 1 < p)
    (hf : p - 1 < 2 ^ 256) (h : powMod 256 a (p - 1) p = 1) :
    ((a : Nat) : ZMod p) ^ (p - 1) = 1 := by
  rw [cast_pow_eq_one_iff a (p - 1) p hp, ← powMod_eq 256 a (p - 1) p hf]
  exact h

theorem zmodPow_ne_one_of_powMod (p a e : Nat) (hp : 1 < p)
    (hf : e < 2 ^ 256) (h : powMod 256 a e p ≠ 1) :
    ((a : Nat) : ZMod p) ^ e ≠ 1 := by
  intro hc
  apply h
  rw [powMod_eq 256 a e p hf]
  exact (cast_pow_eq_one_iff a e p hp).mp hc

/-- A prime dividing a product of prime powers is one of the base primes. -/
theorem prime_mem_of_dvd_prodPow {q : Nat} (hq : Nat.Prime q)
    (L : List (Nat × Nat)) (hL : ∀ pe ∈ L, Nat.Prime pe.1)
    (h : q ∣ prodPow L) : q ∈ L.map Prod.fst := by
  obtain ⟨x, hx, hqx⟩ := (hq.prime.dvd_prod_iff).mp h
  obtain ⟨pe, hpe, rfl⟩ := List.mem_map.mp hx
  have hq1 : q ∣ pe.1 := hq.dvd_of_dvd_pow hqx
  have heq : q = pe.1 := (Nat.prime_dvd_prime_iff_eq hq (hL pe hpe)).mp hq1
  exact List.mem_map.mpr ⟨pe, hpe, heq.symm⟩

/-! ## Lucas certificates for the factor chain of `BN254_FIELD_MODULUS - 1` -/

theorem prime639533339 : Nat.Prime 639533339 := by
  have hp : (1 : Nat) < 639533339 := by norm_num
  refine lucas_primality 639533339 ((2 : Nat) : ZMod 639533339)
    (zmodPow_one_of_powMod _ _ hp (by decide) (by decide)) ?_
  intro q hq hdvd
  have hprod : prodPow factors639533339 = 639533339 - 1 := by decide
  have hmem := prime_mem_of_dvd_prodPow hq factors639533339
    (by intro pe hpe; fin_cases hpe <;> norm_num) (hprod ▸ hdvd)
  simp only [factors639533339, List.map_cons, List.map_nil, List.mem_cons,
    List.not_mem_nil, or_false] at hmem
  rcases hmem with rfl | rfl | rfl | rfl <;>
    exact zmodPow_ne_one_of_powMod _ _ _ hp (by decide) (by decide)

theorem prime65865678001877903 : Nat.Prime 65865678001877903 := by
  have hp : (1 : Nat) < 65865678001877903 := by norm_num
  refine lucas_primality 65865678001877903 ((5 : Nat) : ZMod 65865678001877903)
    (zmodPow_one_of_powMod _ _ hp (by decide) (by decide)) ?_
  intro q hq hdvd
  have hprod : prodPow factors65865678001877903 = 65865678001877903 - 1 := by
    decide
  have hmem := prime_mem_of_dvd_prodPow hq factors65865678001877903
    (by intro pe hpe; fin_cases hpe <;>
      first
      | exact prime639533339
      | norm_num)
    (hprod ▸ hdvd)
  simp only [factors65865678001877903, List.map_cons, List.map_nil,
    List.mem_cons, List.not_mem_nil, or_false] at hmem
  rcases hmem with rfl | rfl | rfl | rfl | rfl <;>
    exact zmodPow_ne_one_of_powMod _ _ _ hp (by decide) (by decide)

theorem prime12048837557 : Nat.Prime 12048837557 := by
  have hp : (1 : Nat) < 12048837557 := by norm_num
  refine lucas_primality 12048837557 ((2 : Nat) : ZMod 12048837557)
    (zmodPow_one_of_powMod _ _ hp (by decide) (by decide)) ?_
  intro q hq hdvd
  have hprod : prodPow factors12048837557 = 12048837557 - 1 := by decide
  have hmem := prime_mem_of_dvd_prodPow hq factors12048837557
    (by intro pe hpe; fin_cases hpe <;> norm_num) (hprod ▸ hdvd)
  simp only [factors12048837557, List.map_cons, List.map_nil, List.mem_cons,
    List.not_mem_nil, or_false] at hmem
  rcases hmem with rfl | rfl | rfl | rfl <;>
    exact zmodPow_ne_one_of_powMod _ _ _ hp (by decide) (by decide)

theorem prime5156902474397 : Nat.Prime 5156902474397 := by
  have hp : (1 : Nat) < 5156902474397 := by norm_num
  refine lucas_primality 5156902474397 ((2 : Nat) : ZMod 5156902474397)
    (zmodPow_one_of_powMod _ _ hp (by decide) (by decide)) ?_
  intro q hq hdvd
  have hprod : prodPow factors5156902474397 = 5156902474397 - 1 := by decide
  have hmem := prime_mem_of_dvd_prodPow hq factors5156902474397
    (by intro pe hpe; fin_cases hpe <;>
      first
      | exact prime12048837557
      | norm_num)
    (hprod ▸ hdvd)
  simp only [factors5156902474397, List.map_cons, List.map_nil, List.mem_cons,
    List.not_mem_nil, or_false] at hmem
  rcases hmem with rfl | rfl | rfl <;>
    exact zmodPow_ne_one_of_powMod _ _ _ hp (by decide) (by decide)

theorem prime1670836401704629 : Nat.Prime 1670836401704629 := by
  have hp : (1 : Nat) < 1670836401704629 := by norm_num
  refine lucas_primality 1670836401704629 ((2 : Nat) : ZMod 1670836401704629)
    (zmodPow_one_of_powMod _ _ hp (by decide) (by decide)) ?_
  intro q hq hdvd
  have hprod : prodPow factors1670836401704629 = 1670836401704629 - 1 := by
    decide
  have hmem := prime_mem_of_dvd_prodPow hq factors1670836401704629
    (by intro pe hpe; fin_cases hpe <;>
      first
      | exact prime5156902474397
      | norm_num)
    (hprod ▸ hdvd)
  simp only [factors1670836401704629, List.map_cons, List.map_nil,
    List.mem_cons, List.not_mem_nil, or_false] at hmem
  rcases hmem with rfl | rfl | rfl <;>
    exact zmodPow_ne_one_of_powMod _ _ _ hp (by decide) (by decide)

theorem prime13818364434197438864469338081 :
    Nat.Prime 13818364434197438864469338081 := by
  have hp : (1 : Nat) < 13818364434197438864469338081 := by norm_num
  refine lucas_primality 13818364434197438864469338081
    ((3 : Nat) : ZMod 13818364434197438864469338081)
    (zmodPow_one_of_powMod _ _ hp (by decide) (by decide)) ?_
  intro q hq hdvd
  have hprod : prodPow factors13818364434197438864469338081 =
      13818364434197438864469338081 - 1 := by decide
  have hmem := prime_mem_of_dvd_prodPow hq factors13818364434197438864469338081
    (by intro pe hpe; fin_cases hpe <;>
      first
      | exact prime65865678001877903
      | norm_num)
    (hprod ▸ hdvd)
  simp only [factors13818364434197438864469338081, List.map_cons,
    List.map_nil, List.mem_cons, List.not_mem_nil, or_false] at hmem
  rcases hmem with rfl | rfl | rfl | rfl | rfl <;>
    exact zmodPow_ne_one_of_powMod _ _ _ hp (by decide) (by decide)

theorem prime405928799 : Nat.Prime 405928799 := by
  have hp : (1 : Nat) < 405928799 := by norm_num
  refine lucas_primality 405928799 ((22 : Nat) : ZMod 405928799)
    (zmodPow_one_of_powMod _ _ hp (by decide) (by decide)) ?_
  intro q hq hdvd
  have hprod : prodPow factors405928799 = 405928799 - 1 := by decide
  have hmem := prime_mem_of_dvd_prodPow hq factors405928799
    (by intro pe hpe; fin_cases hpe <;> norm_num) (hprod ▸ hdvd)
  simp only [factors405928799, List.map_cons, List.map_nil, List.mem_cons,
    List.not_mem_nil, or_false] at hmem
  rcases hmem with rfl | rfl | rfl | rfl <;>
    exact zmodPow_ne_one_of_powMod _ _ _ hp (by decide) (by decide)

theorem primeBN254 : Nat.Prime BN254_FIELD_MODULUS := by
  have hp : (1 : Nat) < BN254_FIELD_MODULUS := by decide
  refine lucas_primality BN254_FIELD_MODULUS
    ((5 : Nat) : ZMod BN254_FIELD_MODULUS)
    (zmodPow_one_of_powMod _ _ hp (by decide) (by decide)) ?_
  intro q hq hdvd
  have hprod : prodPow factorsBN254 = BN254_FIELD_MODULUS - 1 := by decide
  have hmem := prime_mem_of_dvd_prodPow hq factorsBN254
    (by intro pe hpe; fin_cases hpe <;>
      first
      | exact prime405928799
      | exact prime1670836401704629
      | exact prime13818364434197438864469338081
      | norm_num)
    (hprod ▸ hdvd)
  simp only [factorsBN254, List.map_cons, List.map_nil, List.mem_cons,
    List.not_mem_nil, or_false] at hmem
  rcases hmem with rfl | rfl | rfl | rfl | rfl | rfl | rfl | rfl | rfl | rfl <;>
    exact zmodPow_ne_one_of_powMod _ _ _ hp (by decide) (by decide)

/-! ## Helper lemmas about `dropWhile` and `trimChars` -/

theorem dropWhile_head_all {α : Type} (p : α → Bool) (l : List α) :
    ((l.dropWhile p).head?.all fun c => ! p c) = true := by
  induction l with
  | nil => rfl
  | cons x xs ih =>
    rw [List.dropWhile_cons]
    by_cases hx : p x
    · rw [if_pos hx]
      exact ih
    · rw [if_neg hx]
      have hx' : p x = false := by
        cases hpx : p x
        · rfl
        · exact absurd hpx hx
      show (! p x) = true
      rw [hx']
      rfl

theorem dropWhile_eq_self_of_head {α : Type} (p : α → Bool) (l : List α)
    (h : (l.head?.all fun c => ! p c) = true) : l.dropWhile p = l := by
  cases l with
  | nil => rfl
  | cons x xs =>
    have hx : p x = false := by
      have hb : (! p x) = true := h
      cases hpx : p x
      · rfl
      · rw [hpx] at hb
        exact absurd hb (by decide)
    simp [List.dropWhile_cons, hx]

theorem getLast?_dropWhile {α : Type} (p : α → Bool) (l : List α)
    (h : l.dropWhile p ≠ []) : (l.dropWhile p).getLast? = l.getLast? := by
  induction l with
  | nil => exact absurd rfl h
  | cons x xs ih =>
    rw [List.dropWhile_cons] at h ⊢
    by_cases hx : p x
    · rw [if_pos hx] at h ⊢
      rw [ih h]
      have hxs : xs ≠ [] := by
        intro hn
        subst hn
        exact h rfl
      cases xs with
      | nil => exact absurd rfl hxs
      | cons y ys => rw [List.getLast?_cons_cons]
    · rw [if_neg hx]

theorem trimChars_getLast_all (s : List Char) :
    ((trimChars s).getLast?.all fun c => ! isWsChar c) = true := by
  unfold trimChars
  rw [List.getLast?_reverse]
  exact dropWhile_head_all _ _

theorem trimChars_head_all (s : List Char) :
    ((trimChars s).head?.all fun c => ! isWsChar c) = true := by
  unfold trimChars
  rw [List.head?_reverse]
  by_cases h : (s.dropWhile isWsChar).reverse.dropWhile isWsChar = []
  · rw [h]
    rfl
  · rw [getLast?_dropWhile _ _ h, List.getLast?_reverse]
    exact dropWhile_head_all _ _

theorem trimChars_idem (s : List Char) :
    trimChars (trimChars s) = trimChars s := by
  have h1 : (trimChars s).dropWhile isWsChar = trimChars s :=
    dropWhile_eq_self_of_head _ _ (trimChars_head_all s)
  show (((trimChars s).dropWhile isWsChar).reverse.dropWhile
    isWsChar).reverse = trimChars s
  rw [h1]
  have h2 : (trimChars s).reverse.dropWhile isWsChar =
      (trimChars s).reverse := by
    apply dropWhile_eq_self_of_head
    rw [List.head?_reverse]
    exact trimChars_getLast_all s
  rw [h2, List.reverse_reverse]

/-! ## The claims -/

/-- C1: the spec says the on-ledger `transact` computes the recipient
binding as `callerIdentity mod FIELD_MODULUS`; the source divides instead
(`/` on line 35 of `vortex.move`). At caller identity 1 the code produces
the BCS encoding of `1 / N = 0` where the spec requires the encoding of
`1 mod N = 1`. -/
theorem recipient_binding_division_bug :
    recipient_field 1 = bcsU256 0 ∧
    spec_recipient_field 1 = bcsU256 1 ∧
    recipient_field 1 ≠ spec_recipient_field 1 :=
  ⟨by decide, by decide, by decide⟩

/-- C2: the binding property fails on the code: for the two distinct
caller identities 1 and 2, `transact` computes identical recipient-binding
public inputs, so its outcome is the same function of the verifier state
and proof bytes for both callers — a proof accepted when submitted by
caller 1 is accepted unchanged when submitted by caller 2, for every
possible pairing verifier. -/
theorem transact_not_bound_to_caller :
    ∀ (v : Verifier) (self : Vortex) (pb : List Nat),
      recipient_field 1 = recipient_field 2 ∧
      transact v self pb 1 = transact v self pb 2 := by
  intro v self pb
  have h : recipient_field 1 = recipient_field 2 := by decide
  exact ⟨h, by simp [transact, h]⟩

/-- C3: any two caller identities below `BN254_FIELD_MODULUS` yield
byte-for-byte identical recipient-binding encodings, namely the BCS
encoding of 0. -/
theorem recipient_field_constant_below_modulus :
    ∀ X Y : Nat, X < BN254_FIELD_MODULUS → Y < BN254_FIELD_MODULUS →
      recipient_field X = recipient_field Y ∧
      recipient_field X = bcsU256 0 := by
  intro X Y hX hY
  unfold recipient_field
  rw [Nat.div_eq_of_lt hX, Nat.div_eq_of_lt hY]
  exact ⟨rfl, rfl⟩

theorem recipient_field_constant_below_modulus_witness :
    (1 < BN254_FIELD_MODULUS ∧ 2 < BN254_FIELD_MODULUS) ∧
    (recipient_field 1 = recipient_field 2 ∧
      recipient_field 1 = bcsU256 0) :=
  ⟨⟨by decide, by decide⟩,
    recipient_field_constant_below_modulus 1 2 (by decide) (by decide)⟩

/-- C4: for every verifier state, proof bytes and caller, `transact`
completes normally (returning the state unchanged) exactly when the
pairing verification of the deserialized proof points against the stored
prepared key and the recomputed public input returns `true`; otherwise the
whole operation aborts, the only two outcomes being normal completion
with the unchanged state or the abort. -/
theorem transact_ok_iff_verify :
    ∀ (v : Verifier) (self : Vortex) (pb : List Nat) (s : Nat),
      (transact v self pb s = Except.ok self ↔
        v self.vk (public_proof_inputs_from_bytes (recipient_field s))
          (proof_points_from_bytes pb) = true) ∧
      (transact v self pb s = Except.ok self ∨
        transact v self pb s = Except.error 0) := by
  intro v self pb s
  cases hv : v self.vk (public_proof_inputs_from_bytes (recipient_field s))
      (proof_points_from_bytes pb) with
  | true => simp [transact, hv]
  | false => simp [transact, hv]

/-- C5: both failure modes of the native verifier — proof bytes that fail
to deserialize into curve points, and points that deserialize but fail the
pairing check — make `transact` abort with the same observable outcome,
abort code 0, with nothing distinguishing which check failed. -/
theorem transact_failures_identical :
    ∀ {π : Type} (deser : List Nat → Option π)
      (pairing : PreparedVerifyingKey → PublicProofInputs → π → Bool)
      (self : Vortex) (b1 : List Nat) (s1 : Nat) (b2 : List Nat) (pts : π)
      (s2 : Nat),
      deser b1 = none →
      deser b2 = some pts →
      pairing self.vk (public_proof_inputs_from_bytes (recipient_field s2))
        pts = false →
      transact (nativeVerify deser pairing) self b1 s1 = Except.error 0 ∧
      transact (nativeVerify deser pairing) self b2 s2 = Except.error 0 := by
  intro π deser pairing self b1 s1 b2 pts s2 h1 h2 h3
  constructor
  · simp [transact, nativeVerify, proof_points_from_bytes, h1]
  · simp [transact, nativeVerify, proof_points_from_bytes, h2, h3]

theorem transact_failures_identical_witness :
    sampleDeser [] = none ∧
    sampleDeser [0] = some () ∧
    samplePairing V0.vk
      (public_proof_inputs_from_bytes (recipient_field 0)) () = false ∧
    (transact (nativeVerify sampleDeser samplePairing) V0 [] 0 =
        Except.error 0 ∧
      transact (nativeVerify sampleDeser samplePairing) V0 [0] 0 =
        Except.error 0) :=
  ⟨rfl, rfl, rfl,
    transact_failures_identical sampleDeser samplePairing V0 [] 0 [0] () 0
      rfl rfl rfl⟩

/-- C6 counterexample: the claim says the exposed operation takes exactly
the three arguments the client submits; in the source the client submits
three arguments (pool object, proof bytes, `tx.pure.u256(30)`), but the
Move `transact` has only two client-suppliable parameters (the third
parameter is the runtime-injected `&mut TxContext`). -/
theorem transact_call_mismatch_counterexample :
    (transactMoveCallArgs 1 [2, 3] 30).length = 3 ∧
    transactClientParamTypes.length ≠ 3 := by decide

/-- C6 amended: the operation's parameters are the pool object, the proof
bytes vector, and the runtime-injected transaction context; the client
submits three arguments (pool object, proof bytes vector, a `u256` public
value), one more than the operation's client-suppliable parameters. -/
theorem transact_signature_and_client_args :
    ∀ (pool : Nat) (bytes : List Nat) (pv : Nat),
      transactParamTypes =
        [MoveParamType.mutRefVortex, MoveParamType.vecU8,
         MoveParamType.mutRefTxContext] ∧
      transactClientParamTypes =
        [MoveParamType.mutRefVortex, MoveParamType.vecU8] ∧
      transactMoveCallArgs pool bytes pv =
        [SuiArg.objectRef pool, SuiArg.pureVecU8 bytes,
         SuiArg.pureU256 pv] ∧
      (transactMoveCallArgs pool bytes pv).length =
        transactClientParamTypes.length + 1 := by
  intro pool bytes pv
  exact ⟨rfl, rfl, rfl, rfl⟩

/-- C7: `transact` never changes the verifier state: on success it returns
the entry state with `id`, `curve` and `vk` untouched, and otherwise it
aborts, for every pairing verifier, proof bytes and caller. -/
theorem transact_preserves_state :
    ∀ (v : Verifier) (self : Vortex) (pb : List Nat) (s : Nat),
      (transact v self pb s = Except.ok self ∨
        transact v self pb s = Except.error 0) ∧
      ∀ st : Vortex, transact v self pb s = Except.ok st →
        st.id = self.id ∧ st.curve = self.curve ∧ st.vk = self.vk := by
  intro v self pb s
  cases hv : v self.vk (public_proof_inputs_from_bytes (recipient_field s))
      (proof_points_from_bytes pb) with
  | true =>
    refine ⟨Or.inl (by simp [transact, hv]), ?_⟩
    intro st hst
    have hself : self = st := by simpa [transact, hv] using hst
    rw [← hself]
    exact ⟨rfl, rfl, rfl⟩
  | false =>
    refine ⟨Or.inr (by simp [transact, hv]), ?_⟩
    intro st hst
    simp [transact, hv] at hst

theorem transact_preserves_state_witness :
    transact (fun _ _ _ => true) V0 [] 0 = Except.ok V0 ∧
    (V0.id = V0.id ∧ V0.curve = V0.curve ∧ V0.vk = V0.vk) :=
  ⟨rfl, (transact_preserves_state (fun _ _ _ => true) V0 [] 0).2 V0 rfl⟩

/-- C8: the one-time initialization picks the BN254 curve, prepares the
verification key from the embedded verification-key bytes, and shares the
resulting `Vortex` object; afterwards the only exposed operation,
`transact`, either completes with the state unchanged or aborts, so no
further state transition of the verifier object exists. -/
theorem init_builds_ready_state :
    ∀ (vkBytes : List Nat) (ctx : TxContext),
      (init vkBytes ctx).1 =
        Effect.shared
          { id := ctx.idsCreated, curve := bn254,
            vk := prepare_verifying_key bn254 vkBytes } ∧
      ∀ (v : Verifier) (self : Vortex) (pb : List Nat) (s : Nat),
        transact v self pb s = Except.ok self ∨
        transact v self pb s = Except.error 0 := by
  intro vkBytes ctx
  refine ⟨rfl, ?_⟩
  intro v self pb s
  cases hv : v self.vk (public_proof_inputs_from_bytes (recipient_field s))
      (proof_points_from_bytes pb) with
  | true => exact Or.inl (by simp [transact, hv])
  | false => exact Or.inr (by simp [transact, hv])

/-- C9: the constant `BN254_FIELD_MODULUS` equals the BN254 scalar-field
order, a prime strictly between `2 ^ 253` and `2 ^ 254`. -/
theorem field_modulus_is_bn254_prime :
    BN254_FIELD_MODULUS =
      21888242871839275222246405745257275088548364400416034343698204186575808495617 ∧
    Nat.Prime BN254_FIELD_MODULUS ∧
    2 ^ 253 < BN254_FIELD_MODULUS ∧ BN254_FIELD_MODULUS < 2 ^ 254 :=
  ⟨rfl, primeBN254, by decide, by decide⟩

/-- C10: the key material strings handed to proof generation and
verification are exactly the key files' contents with surrounding
whitespace trimmed: the loaded keys equal `trimChars` of the file
contents, and neither end of the loaded strings is whitespace. -/
theorem key_material_loaded_trimmed :
    ∀ (pkFileContents vkFileContents : List Char),
      proveKeyArg pkFileContents = trimChars pkFileContents ∧
      verifyKeyArg vkFileContents = trimChars vkFileContents ∧
      ((proveKeyArg pkFileContents).head?.all fun c => ! isWsChar c)
        = true ∧
      ((proveKeyArg pkFileContents).getLast?.all fun c => ! isWsChar c)
        = true ∧
      ((verifyKeyArg vkFileContents).head?.all fun c => ! isWsChar c)
        = true ∧
      ((verifyKeyArg vkFileContents).getLast?.all fun c => ! isWsChar c)
        = true := by
  intro pk vk
  have hv : verifyKeyArg vk = trimChars vk := trimChars_idem vk
  refine ⟨rfl, hv, trimChars_head_all pk, trimChars_getLast_all pk, ?_, ?_⟩
  · rw [hv]
    exact trimChars_head_all vk
  · rw [hv]
    exact trimChars_getLast_all vk

end VortexModel
